import Mathlib

/-!
Verification of the download orchestrator in src/main.py (class
YouTubeDownloader) against its natural-language specification.

The Python code is shallowly embedded: pure string manipulation becomes
Lean functions on String and List Char; the interactive loop becomes a
fold over the list of input lines; the per-video download operation,
whose effects depend on external collaborators (the extraction library,
the filesystem, the external encoder process), becomes a function from an
explicit environment of collaborator outcomes to a record of the
observable effects (files created, files remaining, outputs produced).
Machine integers do not occur; the only arithmetic is exact rational
arithmetic standing for the progress computation.
-/

/-! ## Basic string machinery shared by several embedded functions -/

/-- Does the character list begin with the given needle (character by
character)?  Used to embed Python substring tests and the literal part of
the regular expressions in main.py. -/
def listStartsWith : List Char → List Char → Bool
  | [], _ => true
  | _ :: _, [] => false
  | a :: as, b :: bs => a == b && listStartsWith as bs

/-- Does the needle occur contiguously anywhere in the haystack?  This is
the embedding of the Python expression needle in haystack on strings. -/
def listContains (needle : List Char) : List Char → Bool
  | [] => listStartsWith needle []
  | c :: cs => listStartsWith needle (c :: cs) || listContains needle cs

/-- Embedding of str.strip() with no argument: drop leading and trailing
whitespace.  Char.isWhitespace covers the ASCII whitespace the inputs at
hand can contain. -/
def pyStrip (s : String) : String :=
  String.mk
    (((s.data.dropWhile Char.isWhitespace).reverse.dropWhile
        Char.isWhitespace).reverse)

/-- Embedding of str.lower(): ASCII lowercasing, which agrees with Python
on the command strings compared in the loop. -/
def pyLower (s : String) : String := String.mk (s.data.map Char.toLower)

/-- Embedding of str.split(sep) for a one-character separator: break the
character list at every occurrence of the separator; n separators give
n plus one parts, possibly empty ones. -/
def splitOnChar (sep : Char) : List Char → List (List Char)
  | [] => [[]]
  | c :: cs =>
    let r := splitOnChar sep cs
    if c == sep then [] :: r
    else
      match r with
      | [] => [[c]]
      | h :: t => (c :: h) :: t

/-- Decimal accumulator for the digits of an integer literal. -/
def digitsToNat (acc : Nat) : List Char → Nat
  | [] => acc
  | c :: cs => digitsToNat (acc * 10 + (c.toNat - ('0').toNat)) cs

/-- Embedding of the Python builtin int() applied to a piece of a progress
line: surrounding whitespace is ignored, then an optional sign and decimal
digits; failure is None (the code catches the ValueError).  Exotic Python
literal forms (underscore digit separators, non-ASCII digits) never occur
in the encoder log and are not modelled. -/
def pyInt (s : String) : Option Int :=
  let t :=
    ((s.data.dropWhile Char.isWhitespace).reverse.dropWhile
        Char.isWhitespace).reverse
  match t with
  | [] => none
  | '-' :: ds =>
    if !ds.isEmpty && ds.all Char.isDigit then
      some (-(digitsToNat 0 ds : Nat)) else none
  | '+' :: ds =>
    if !ds.isEmpty && ds.all Char.isDigit then
      some ((digitsToNat 0 ds : Nat) : Int) else none
  | ds =>
    if ds.all Char.isDigit then some ((digitsToNat 0 ds : Nat) : Int)
    else none

/-! ## The sanitizer (main.py lines 21 to 23)

The method body is a single regular-expression substitution,
re.sub applied to the character class of backslash / * ? : " < > | #
with the empty replacement string: a left-to-right scan deleting every
character of the class and keeping every other character. -/

/-- The character class of the regular expression in _sanitize_filename. -/
def illegalFilenameChars : List Char :=
  ['\\', '/', '*', '?', ':', '"', '<', '>', '|', '#']

/-- Left-to-right single-character substitution by the empty string: the
effect of re.sub over a one-character class. -/
def reSubRemove (bad : Char → Bool) : List Char → List Char
  | [] => []
  | c :: cs => if bad c then reSubRemove bad cs else c :: reSubRemove bad cs

/-- Embedding of YouTubeDownloader._sanitize_filename. -/
def sanitize_filename (title : String) : String :=
  String.mk (reSubRemove (fun c => illegalFilenameChars.contains c) title.data)

/-! ## The interactive loop (main.py lines 228 to 253)

The loop body reads a line, strips surrounding whitespace, then compares
the lowercased result against the three commands; an empty stripped line
is skipped and anything else is passed to _download_video.  The stripped
string itself (link = user_input) is what gets passed. -/

/-- The two session modes stored in self.mode: the characters S and V. -/
inductive Mode
  | S
  | V
  deriving DecidableEq

/-- Initial mode set in __init__ (main.py line 19): Sound. -/
def initMode : Mode := Mode.S

/-- What one iteration of the loop body does with one raw input line. -/
inductive LoopAction
  | exit
  | setVideo
  | setSound
  | ignore
  | downloadVideo (url : String)
  | downloadPlaylist (url : String)
  deriving DecidableEq

/-- Embedding of the dispatch in run(): strip, then compare the lowercase
form with each command in order, then the emptiness test, then the
download call on the stripped input.  Lowercasing is ASCII here, which
agrees with Python str.lower on the command strings.  The loop body never
contains a call to _download_playlist, so no branch produces
LoopAction.downloadPlaylist. -/
def dispatch (raw : String) : LoopAction :=
  let user_input := pyStrip raw
  if pyLower user_input = "/exit" then LoopAction.exit
  else if pyLower user_input = "/video" then LoopAction.setVideo
  else if pyLower user_input = "/sound" then LoopAction.setSound
  else if user_input = "" then LoopAction.ignore
  else LoopAction.downloadVideo user_input

/-- Mode after one loop iteration on one input line.  Only the two
mode-switch branches assign self.mode; _download_video reads but never
writes self.mode, so the download branch leaves the mode unchanged. -/
def stepMode (m : Mode) (raw : String) : Mode :=
  match dispatch raw with
  | LoopAction.setVideo => Mode.V
  | LoopAction.setSound => Mode.S
  | _ => m

/-- Mode when the loop stops or the input list is exhausted, given the
list of raw input lines in order.  The exit command breaks the loop; all
later lines are never read. -/
def runModeLoop (m : Mode) : List String → Mode
  | [] => m
  | raw :: rest =>
    match dispatch raw with
    | LoopAction.exit => m
    | LoopAction.setVideo => runModeLoop Mode.V rest
    | LoopAction.setSound => runModeLoop Mode.S rest
    | _ => runModeLoop m rest

/-! ## File names and encoder argument lists (main.py lines 85 to 161)

The paths built by _download_video with os.path.join: the temporary
elementary streams under the .temp subdirectory, the merged video output
and the converted sound output under the download path. -/

/-- Path of the temporary video elementary stream (main.py line 89). -/
def tempVideoFile (path title : String) : String :=
  path ++ "/.temp/" ++ title ++ "_video.mp4"

/-- Path of the temporary audio elementary stream (main.py line 93). -/
def tempAudioFile (path title : String) : String :=
  path ++ "/.temp/" ++ title ++ "_audio.mp4"

/-- Path of the merged video output (main.py line 96). -/
def outputVideoFile (path title : String) : String :=
  path ++ "/" ++ title ++ ".mp4"

/-- Path of the converted sound output (main.py line 152). -/
def outputSoundFile (path title : String) : String :=
  path ++ "/" ++ title ++ ".mp3"

/-- Video codec choice (main.py line 100): hardware codec on Darwin,
software codec everywhere else. -/
def videoCodec (isDarwin : Bool) : String :=
  if isDarwin then "h264_videotoolbox" else "libx264"

/-- The encoder argument list built for the video-mode merge (main.py
lines 101 to 113), element for element. -/
def ffmpegMergeCommand (isDarwin : Bool)
    (progressName videoFilepath audioFilepath outputFilepath : String) :
    List String :=
  ["ffmpeg",
   "-y",
   "-nostdin",
   "-progress", progressName,
   "-i", videoFilepath,
   "-i", audioFilepath,
   "-c:v", videoCodec isDarwin,
   "-pix_fmt", "yuv420p",
   "-c:a", "aac",
   "-strict", "experimental",
   outputFilepath]

/-- The encoder argument list built for the sound-mode conversion
(main.py lines 154 to 161), element for element. -/
def ffmpegSoundCommand (mp3FilePath : String) : List String :=
  ["ffmpeg",
   "-i", "pipe:0",
   "-vn",
   "-b:a", "192k",
   "-f", "mp3",
   mp3FilePath]

/-! ## The per-video download operation (main.py lines 53 to 177)

The operation talks to the extraction library, the filesystem and the
encoder process.  Those collaborators are abstracted into an environment
recording the outcome of each external step; _download_video is then a
function from the environment to the observable effects.  Control flow is
embedded faithfully: the whole body sits in one try/except, the caption
block has its own inner try/except, and only the ffmpeg merge stage sits
in a try/finally whose finally clause deletes the progress log and the
two temporary files.  An exception in any earlier step jumps straight to
the outer except, skipping every later statement. -/

/-- Outcomes of the external collaborators for one _download_video call. -/
structure Env where
  /-- The extraction constructor on the URL succeeds. -/
  resolveOk : Bool
  /-- The raw title reported by the extraction library. -/
  rawTitle : String
  /-- The caption language is present in the caption mapping. -/
  captionAvailable : Bool
  /-- The caption download raises an exception. -/
  captionRaises : Bool
  /-- The video-only stream query returns a stream (not None). -/
  videoStreamSome : Bool
  /-- The audio-only stream query returns a stream (not None). -/
  audioStreamSome : Bool
  /-- The video elementary-stream download completes. -/
  videoDownloadOk : Bool
  /-- The audio elementary-stream download completes. -/
  audioDownloadOk : Bool
  /-- Streaming the audio into the in-memory buffer completes. -/
  soundBufferOk : Bool
  /-- The encoder process itself raises (spawn or wait fails). -/
  ffmpegRaises : Bool
  /-- The encoder process exit code once it ran. -/
  ffmpegExitCode : Nat
  deriving DecidableEq

/-- Observable effects of one _download_video call. -/
structure DownloadResult where
  /-- Control reached the branch on self.mode (main.py line 72). -/
  reachedModeBranch : Bool
  /-- The caption file was written next to the outputs. -/
  captionSaved : Bool
  /-- Files created under the .temp subdirectory during the call. -/
  tempCreated : List String
  /-- Files still present under .temp when the call ends. -/
  tempRemaining : List String
  /-- The encoder progress log still exists when the call ends. -/
  progressLogRemaining : Bool
  /-- Media output files the mode branch wrote under the download path. -/
  outputs : List String
  deriving DecidableEq

/-- Embedding of YouTubeDownloader._download_video as a function from the
collaborator outcomes to the observable effects, following the statement
order of main.py lines 53 to 177. -/
def download_video (path : String) (mode : Mode) (env : Env) : DownloadResult :=
  if !env.resolveOk then
    -- the YouTube constructor raised; the outer except caught it before
    -- anything else happened
    ⟨false, false, [], [], false, []⟩
  else
    let title := sanitize_filename env.rawTitle
    -- caption block (lines 62 to 70): wrapped in its own try/except, so a
    -- caption failure or absence never leaves this block
    let captionSaved := env.captionAvailable && !env.captionRaises
    match mode with
    | Mode.V =>
      if !env.videoStreamSome then
        -- early return at line 80
        ⟨true, captionSaved, [], [], false, []⟩
      else if !env.audioStreamSome then
        -- early return at line 83
        ⟨true, captionSaved, [], [], false, []⟩
      else
        let vfile := tempVideoFile path title
        let afile := tempAudioFile path title
        if !env.videoDownloadOk then
          -- download raised at line 89 before the stream was written; the
          -- outer except catches it
          ⟨true, captionSaved, [], [], false, []⟩
        else if !env.audioDownloadOk then
          -- the video elementary stream was already written to .temp; the
          -- exception at line 93 skips the ffmpeg try/finally, so no
          -- statement ever deletes it
          ⟨true, captionSaved, [vfile], [vfile], false, []⟩
        else
          -- both streams are in .temp and the progress log exists; from
          -- here the try/finally of lines 117 to 142 runs, and its finally
          -- clause unlinks the progress log and removes both temporary
          -- files whatever the encoder did
          let merged := !env.ffmpegRaises && env.ffmpegExitCode == 0
          ⟨true, captionSaved, [vfile, afile], [], false,
            if merged then [outputVideoFile path title] else []⟩
    | Mode.S =>
      if !env.audioStreamSome then
        -- stream is None, so stream_to_buffer at line 149 raises and the
        -- outer except catches it; nothing was written
        ⟨true, captionSaved, [], [], false, []⟩
      else if !env.soundBufferOk then
        ⟨true, captionSaved, [], [], false, []⟩
      else
        -- lines 154 to 175: the encoder reads the buffer from stdin and
        -- writes the output file directly; no temporary file exists
        let converted := !env.ffmpegRaises && env.ffmpegExitCode == 0
        ⟨true, captionSaved, [], [], false,
          if converted then [outputSoundFile path title] else []⟩

/-! ## The playlist operation (main.py lines 202 to 218)

The playlist identifier is the first match of the regular expression
list=([a-zA-Z0-9_-]+): the literal list= followed by a greedy nonempty
run of identifier characters.  When re.search returns None, the attribute
access .group(1) raises and the except block abandons the operation, so
the Playlist constructor and _download_video are never reached. -/

/-- The character class [a-zA-Z0-9_-] of the playlist regular expression
(ASCII only, as in Python). -/
def playlistIdChar (c : Char) : Bool :=
  (('a' ≤ c && c ≤ 'z') || ('A' ≤ c && c ≤ 'Z') || ('0' ≤ c && c ≤ '9')
    || c == '_' || c == '-')

/-- Match of the playlist regular expression anchored at the front of the
suffix: the literal part, then the greedy capture, empty capture failing. -/
def matchListIdAt (cs : List Char) : Option (List Char) :=
  if listStartsWith ['l', 'i', 's', 't', '='] cs then
    let g := (cs.drop 5).takeWhile playlistIdChar
    if g.isEmpty then none else some g
  else none

/-- Embedding of re.search for the playlist regular expression: try every
suffix from the left and return the first successful capture. -/
def searchListId : List Char → Option (List Char)
  | [] => none
  | c :: cs =>
    match matchListIdAt (c :: cs) with
    | some g => some g
    | none => searchListId cs

/-- Observable effects of one _download_playlist call.  The resolver flag
records whether the Playlist constructor was reached at all; the list
records the URLs passed to _download_video, in order. -/
structure PlaylistResult where
  resolverCalled : Bool
  downloadCalls : List String
  deriving DecidableEq

/-- Embedding of YouTubeDownloader._download_playlist, abstracting the
Playlist collaborator into a resolver from the rebuilt playlist URL to
its ordered video URLs (None when resolution raises). -/
def download_playlist (url : String)
    (resolveUrls : String → Option (List String)) : PlaylistResult :=
  match searchListId url.data with
  | none =>
    -- re.search returned None and .group(1) raised; the except block
    -- reports the error and the operation ends here
    ⟨false, []⟩
  | some pid =>
    let playlist_url := "https://www.youtube.com/playlist?list=" ++ String.mk pid
    match resolveUrls playlist_url with
    | none => ⟨true, []⟩
    | some urls => ⟨true, urls⟩

/-! ## The progress-reading routine (main.py lines 183 to 200)

The routine reads the encoder progress log line by line.  A line
containing progress=end stops it; a line containing out_time_ms= is split
on the equality sign, the second part is parsed as an integer (parse
failures ignored), and the progress bar is updated by the difference
between the parsed microsecond value over one million and the current bar
position.  The bar position is modelled as an exact rational. -/

/-- Does the line stop the routine (main.py line 190)? -/
def isEndLine (line : String) : Bool :=
  listContains ("progress=end".data) line.data

/-- The microsecond value a line contributes, when it contributes one:
the substring test, the split on the equality sign, the length guard and
the integer parse of main.py lines 192 to 196. -/
def lineValue (line : String) : Option Int :=
  if listContains ("out_time_ms=".data) line.data then
    match splitOnChar '=' line.data with
    | _ :: p1 :: _ => pyInt (String.mk p1)
    | _ => none
  else none

/-- Bar position after one non-terminating line: pbar.update is called
with the difference between the new elapsed seconds and the current
position (main.py lines 197 to 198), and adds that difference. -/
def progressStep (n : ℚ) (line : String) : ℚ :=
  match lineValue line with
  | some v => n + ((v : ℚ) / 1000000 - n)
  | none => n

/-- Embedding of _update_ffmpeg_progress over the lines the routine
consumes, in order: final bar position, and whether the terminating line
was seen.  The real routine blocks waiting for more lines when the list
runs out without a terminating line; the Bool records that distinction. -/
def update_ffmpeg_progress (n : ℚ) : List String → ℚ × Bool
  | [] => (n, false)
  | line :: rest =>
    if isEndLine line then (n, true)
    else update_ffmpeg_progress (progressStep n line) rest

/-- Successive bar positions displayed after each updating line, up to
the terminating line. -/
def progressTrace (n : ℚ) : List String → List ℚ
  | [] => []
  | line :: rest =>
    if isEndLine line then []
    else
      match lineValue line with
      | some _ => progressStep n line :: progressTrace (progressStep n line) rest
      | none => progressTrace n rest

/-- The microsecond values carried by the updating lines the routine
consumes, up to the terminating line. -/
def lineValues : List String → List Int
  | [] => []
  | line :: rest =>
    if isEndLine line then []
    else
      match lineValue line with
      | some v => v :: lineValues rest
      | none => lineValues rest

/-! ## Helper lemmas -/

/-- The single-character substitution is the filter keeping the characters
outside the class. -/
theorem reSubRemove_eq_filter (bad : Char → Bool) (l : List Char) :
    reSubRemove bad l = l.filter (fun c => !bad c) := by
  induction l with
  | nil => rfl
  | cons c cs ih =>
    cases h : bad c <;> simp [reSubRemove, List.filter_cons, h, ih]

/-- A loop run over inputs that never hit a mode-switch branch keeps the
mode it started with. -/
theorem runModeLoop_const (m : Mode) (inputs : List String)
    (h : ∀ raw ∈ inputs, dispatch raw ≠ LoopAction.setVideo
      ∧ dispatch raw ≠ LoopAction.setSound) :
    runModeLoop m inputs = m := by
  induction inputs with
  | nil => rfl
  | cons raw rest ih =>
    have h1 := h raw (List.mem_cons_self raw rest)
    have h2 : ∀ r ∈ rest, dispatch r ≠ LoopAction.setVideo
        ∧ dispatch r ≠ LoopAction.setSound :=
      fun r hr => h r (List.mem_cons_of_mem raw hr)
    simp only [runModeLoop]
    cases hd : dispatch raw with
    | exit => rfl
    | setVideo => exact absurd hd h1.1
    | setSound => exact absurd hd h1.2
    | ignore => exact ih h2
    | downloadVideo u => exact ih h2
    | downloadPlaylist u => exact ih h2

/-- A successful anchored match begins with the literal part of the
playlist regular expression. -/
theorem matchListIdAt_startsWith {cs g : List Char}
    (h : matchListIdAt cs = some g) :
    listStartsWith ['l', 'i', 's', 't', '='] cs = true := by
  unfold matchListIdAt at h
  split at h
  · assumption
  · cases h

/-- A successful search means the literal part of the playlist regular
expression occurs in the scanned characters. -/
theorem searchListId_some_contains {cs : List Char} {g : List Char}
    (h : searchListId cs = some g) :
    listContains ['l', 'i', 's', 't', '='] cs = true := by
  induction cs with
  | nil => cases h
  | cons c rest ih =>
    unfold searchListId at h
    unfold listContains
    cases hm : matchListIdAt (c :: rest) with
    | some g2 => simp [matchListIdAt_startsWith hm]
    | none =>
      rw [hm] at h
      simp [ih h]

/-- Each updating line sets the bar position to the parsed microsecond
value over one million, whatever the previous position was. -/
theorem progressStep_some {n : ℚ} {line : String} {v : Int}
    (h : lineValue line = some v) :
    progressStep n line = (v : ℚ) / 1000000 := by
  unfold progressStep
  rw [h]
  ring

/-- The displayed positions are exactly the consumed microsecond values
scaled to seconds. -/
theorem progressTrace_eq_map (n : ℚ) (lines : List String) :
    progressTrace n lines
      = (lineValues lines).map (fun v : Int => (v : ℚ) / 1000000) := by
  induction lines generalizing n with
  | nil => rfl
  | cons line rest ih =>
    unfold progressTrace lineValues
    cases he : isEndLine line with
    | true => simp
    | false =>
      simp only [Bool.false_eq_true, if_false]
      cases hv : lineValue line with
      | some v => simp [progressStep_some hv, ih]
      | none => simp [ih]

/-! ## Claim theorems -/

/-- C1: for every input title, the sanitizer returns the title with every
occurrence of the characters backslash / * ? : " < > | # removed and all
other characters preserved in their original order (the result is the
order-preserving filter of the input by the complement of the class); as
a Lean function it is deterministic and pure, and it performs no length
limiting and no normalization beyond the removal itself. -/
theorem sanitize_filename_spec (title : String) :
    (∀ c ∈ (sanitize_filename title).data, c ∉ illegalFilenameChars)
    ∧ (sanitize_filename title).data
        = title.data.filter (fun c => !illegalFilenameChars.contains c) := by
  constructor
  · intro c hc hmem
    rw [sanitize_filename, reSubRemove_eq_filter] at hc
    rw [List.mem_filter] at hc
    simp only [List.contains] at hc
    simp at hc
    exact hc.2 hmem
  · rw [sanitize_filename, reSubRemove_eq_filter]

/-- C2: the session mode has exactly the two states Sound and Video,
starts in Sound, changes in one loop iteration only when that iteration
dispatches the video or sound command, keeps its value over any sequence
of iterations none of which dispatches a mode switch, and the video
command followed by the sound command restores the default Sound state
whatever follows, as long as no later mode switch occurs. -/
theorem mode_state_machine :
    initMode = Mode.S
    ∧ (∀ m : Mode, m = Mode.S ∨ m = Mode.V)
    ∧ (∀ (m : Mode) (raw : String), stepMode m raw ≠ m →
        (dispatch raw = LoopAction.setVideo ∧ stepMode m raw = Mode.V)
        ∨ (dispatch raw = LoopAction.setSound ∧ stepMode m raw = Mode.S))
    ∧ (∀ (m : Mode) (inputs : List String),
        (∀ raw ∈ inputs, dispatch raw ≠ LoopAction.setVideo
          ∧ dispatch raw ≠ LoopAction.setSound) →
        runModeLoop m inputs = m)
    ∧ (∀ (m : Mode) (rest : List String),
        (∀ raw ∈ rest, dispatch raw ≠ LoopAction.setVideo
          ∧ dispatch raw ≠ LoopAction.setSound) →
        runModeLoop m ("/video" :: "/sound" :: rest) = Mode.S) := by
  refine ⟨rfl, ?_, ?_, ?_, ?_⟩
  · intro m
    cases m
    · exact Or.inl rfl
    · exact Or.inr rfl
  · intro m raw h
    unfold stepMode at h ⊢
    cases hd : dispatch raw <;> rw [hd] at h <;> simp at h <;> simp
  · exact runModeLoop_const
  · intro m rest h
    have hv : dispatch "/video" = LoopAction.setVideo := by decide
    have hs : dispatch "/sound" = LoopAction.setSound := by decide
    simp only [runModeLoop, hv, hs]
    exact runModeLoop_const Mode.S rest h

/-- C5: every input line that strips to a non-empty string other than the
three commands is dispatched to the single-video download operation with
the stripped string as URL, and no input line whatsoever is dispatched to
the playlist operation: the loop body contains no call to it. -/
theorem main_loop_single_video_only :
    (∀ raw : String, pyStrip raw ≠ "" →
      pyLower (pyStrip raw) ≠ "/exit" →
      pyLower (pyStrip raw) ≠ "/video" →
      pyLower (pyStrip raw) ≠ "/sound" →
      dispatch raw = LoopAction.downloadVideo (pyStrip raw))
    ∧ (∀ raw url : String, dispatch raw ≠ LoopAction.downloadPlaylist url) := by
  constructor
  · intro raw h0 h1 h2 h3
    simp only [dispatch, h1, h2, h3, h0, if_false, if_neg]
  · intro raw url
    simp only [dispatch]
    split
    · simp
    · split
      · simp
      · split
        · simp
        · split <;> simp

/-- C10: command recognition in the loop strips surrounding whitespace
and compares case-insensitively; every line whose stripped lowercase form
equals one of the three commands is handled as that command and is never
passed to the single-video download operation. -/
theorem command_recognition (raw : String) :
    (pyLower (pyStrip raw) = "/exit" → dispatch raw = LoopAction.exit)
    ∧ (pyLower (pyStrip raw) = "/video" → dispatch raw = LoopAction.setVideo)
    ∧ (pyLower (pyStrip raw) = "/sound" → dispatch raw = LoopAction.setSound)
    ∧ (∀ url : String,
        (pyLower (pyStrip raw) = "/exit" ∨ pyLower (pyStrip raw) = "/video"
          ∨ pyLower (pyStrip raw) = "/sound") →
        dispatch raw ≠ LoopAction.downloadVideo url) := by
  refine ⟨?_, ?_, ?_, ?_⟩
  · intro h
    simp [dispatch, h]
  · intro h
    have hne : pyLower (pyStrip raw) ≠ "/exit" := by rw [h]; decide
    simp [dispatch, h, hne]
  · intro h
    have hne : pyLower (pyStrip raw) ≠ "/exit" := by rw [h]; decide
    have hnv : pyLower (pyStrip raw) ≠ "/video" := by rw [h]; decide
    simp [dispatch, h, hne, hnv]
  · intro url h hcon
    unfold dispatch at hcon
    rcases h with h | h | h <;> simp [h] at hcon

/-- Concrete run in which both streams exist, the video elementary stream
downloads, and the audio elementary-stream download then raises. -/
def envAudioFails : Env :=
  ⟨true, "Title", false, false, true, true, true, false, true, false, 0⟩

/-- C3 counterexample: a video-mode operation that fails during the audio
elementary-stream download ends with the already-downloaded video
elementary stream still present under .temp, so the temporary files are
not deleted on every failure. -/
theorem video_cleanup_counterexample :
    (download_video "/Users/me/Downloads" Mode.V envAudioFails).tempRemaining
      = [tempVideoFile "/Users/me/Downloads" "Title"]
    ∧ (download_video "/Users/me/Downloads" Mode.V envAudioFails).tempRemaining
      ≠ [] := by
  constructor
  · rfl
  · decide

/-- C3 amended: once the video-mode operation reaches the merge stage
(both elementary streams downloaded), the temporary elementary-stream
files and the encoder progress log are deleted by the time the operation
ends, whatever the encoder did: whether it raised, failed with a nonzero
exit code, or succeeded. -/
theorem video_cleanup_from_merge_stage (path : String) (env : Env)
    (h1 : env.resolveOk = true) (h2 : env.videoStreamSome = true)
    (h3 : env.audioStreamSome = true) (h4 : env.videoDownloadOk = true)
    (h5 : env.audioDownloadOk = true) :
    (download_video path Mode.V env).tempRemaining = []
    ∧ (download_video path Mode.V env).progressLogRemaining = false := by
  simp [download_video, h1, h2, h3, h4, h5]

/-- Concrete run reaching the merge stage where the encoder then fails
with a nonzero exit code. -/
def envMergeFails : Env :=
  ⟨true, "Title", true, false, true, true, true, true, true, false, 1⟩

/-- Witness for the amended C3 at a run whose merge fails. -/
theorem video_cleanup_from_merge_stage_witness :
    (download_video "/d" Mode.V envMergeFails).tempRemaining = []
    ∧ (download_video "/d" Mode.V envMergeFails).progressLogRemaining = false :=
  video_cleanup_from_merge_stage "/d" envMergeFails rfl rfl rfl rfl rfl

/-- C4 counterexample: the sound-mode encoder argument list contains no
overwrite flag, already for one concrete output path. -/
theorem sound_overwrite_counterexample :
    ¬ ("-y" ∈ ffmpegSoundCommand (outputSoundFile "/Users/me/Downloads" "Song")) := by
  decide

/-- C4 amended: the video-mode encoder argument list contains the
overwrite flag, so an existing output container is overwritten; the
sound-mode argument list contains no overwrite flag, so the encoder is
not instructed to overwrite an existing audio output. -/
theorem overwrite_flag_by_mode (isDarwin : Bool)
    (progressName videoFilepath audioFilepath path title : String) :
    "-y" ∈ ffmpegMergeCommand isDarwin progressName videoFilepath audioFilepath
        (outputVideoFile path title)
    ∧ "-y" ∉ ffmpegSoundCommand (outputSoundFile path title) := by
  constructor
  · simp [ffmpegMergeCommand]
  · intro hmem
    simp [ffmpegSoundCommand] at hmem
    have hlen := congrArg String.length hmem
    rw [outputSoundFile] at hlen
    simp only [String.length_append] at hlen
    have h1 : ("-y" : String).length = 2 := rfl
    have h2 : ("/" : String).length = 1 := rfl
    have h3 : (".mp3" : String).length = 4 := rfl
    rw [h1, h2, h3] at hlen
    omega

/-- C6: a playlist URL in which the literal list= never occurs makes the
identifier extraction fail, and the operation is abandoned before the
playlist is resolved: the resolver is never reached and no per-video
download call occurs. -/
theorem playlist_no_list_param (url : String)
    (resolveUrls : String → Option (List String))
    (h : listContains ("list=".data) url.data = false) :
    (download_playlist url resolveUrls).resolverCalled = false
    ∧ (download_playlist url resolveUrls).downloadCalls = [] := by
  have hs : searchListId url.data = none := by
    cases hq : searchListId url.data with
    | none => rfl
    | some g =>
      have hcontains := searchListId_some_contains hq
      rw [show ("list=".data) = ['l', 'i', 's', 't', '='] from rfl] at h
      rw [hcontains] at h
      cases h
  simp [download_playlist, hs]

/-- Witness for C6 at a plain watch URL and a resolver that would return
two videos if it were ever consulted. -/
theorem playlist_no_list_param_witness :
    (download_playlist "https://www.youtube.com/watch?v=abc"
        (fun _ => some ["u1", "u2"])).resolverCalled = false
    ∧ (download_playlist "https://www.youtube.com/watch?v=abc"
        (fun _ => some ["u1", "u2"])).downloadCalls = [] :=
  playlist_no_list_param "https://www.youtube.com/watch?v=abc"
    (fun _ => some ["u1", "u2"]) (by decide)

/-- C7: whenever the URL resolves, the operation reaches the branch on
the session mode whatever happened to the caption download, and neither a
caption exception (caught by the inner handler) nor the absence of the
requested language changes the media outputs of the operation. -/
theorem caption_failure_isolated (path : String) (mode : Mode) (env : Env)
    (h : env.resolveOk = true) :
    (download_video path mode env).reachedModeBranch = true
    ∧ (download_video path mode
        { env with captionRaises := true }).reachedModeBranch = true
    ∧ (download_video path mode { env with captionRaises := true }).outputs
        = (download_video path mode env).outputs
    ∧ (download_video path mode { env with captionAvailable := false }).outputs
        = (download_video path mode env).outputs := by
  obtain ⟨ro, rt, ca, cr, vs, aud, vd, ad, sb, fr, fe⟩ := env
  change ro = true at h
  subst h
  cases mode <;> cases vs <;> cases aud <;> cases vd <;> cases ad <;>
    cases sb <;> cases fr <;> simp [download_video]

/-- Concrete successful sound-mode run in which the caption download
raises. -/
def envCaptionCrash : Env :=
  ⟨true, "T", true, true, true, true, true, true, true, false, 0⟩

/-- Witness for C7 at a run whose caption download raises. -/
theorem caption_failure_isolated_witness :
    (download_video "/d" Mode.S envCaptionCrash).reachedModeBranch = true
    ∧ (download_video "/d" Mode.S
        { envCaptionCrash with captionRaises := true }).reachedModeBranch = true
    ∧ (download_video "/d" Mode.S
        { envCaptionCrash with captionRaises := true }).outputs
        = (download_video "/d" Mode.S envCaptionCrash).outputs
    ∧ (download_video "/d" Mode.S
        { envCaptionCrash with captionAvailable := false }).outputs
        = (download_video "/d" Mode.S envCaptionCrash).outputs :=
  caption_failure_isolated "/d" Mode.S envCaptionCrash rfl

/-- C8: a successful sound-mode run writes exactly one media output,
at the download path under the sanitized title with the mp3 extension,
and creates nothing under the .temp directory at any point. -/
theorem sound_mode_single_output (path : String) (env : Env)
    (h1 : env.resolveOk = true) (h2 : env.audioStreamSome = true)
    (h3 : env.soundBufferOk = true) (h4 : env.ffmpegRaises = false)
    (h5 : env.ffmpegExitCode = 0) :
    (download_video path Mode.S env).outputs
      = [path ++ "/" ++ sanitize_filename env.rawTitle ++ ".mp3"]
    ∧ (download_video path Mode.S env).tempCreated = []
    ∧ (download_video path Mode.S env).tempRemaining = [] := by
  simp [download_video, h1, h2, h3, h4, h5, outputSoundFile]

/-- Concrete successful sound-mode run with an illegal character in the
raw title. -/
def envSoundOk : Env :=
  ⟨true, "My:Song", false, false, true, true, true, true, true, false, 0⟩

/-- Witness for C8 at a concrete successful sound-mode run. -/
theorem sound_mode_single_output_witness :
    (download_video "/d" Mode.S envSoundOk).outputs
      = ["/d" ++ "/" ++ sanitize_filename envSoundOk.rawTitle ++ ".mp3"]
    ∧ (download_video "/d" Mode.S envSoundOk).tempCreated = []
    ∧ (download_video "/d" Mode.S envSoundOk).tempRemaining = [] :=
  sound_mode_single_output "/d" envSoundOk rfl rfl rfl rfl rfl

/-- C9 counterexample: on a progress log whose reported microsecond
values decrease, the successive displayed positions do not strictly
increase: the routine follows the log, it does not enforce monotonicity. -/
theorem progress_monotone_counterexample :
    ¬ List.Chain' (fun a b : ℚ => a < b)
      (progressTrace 0
        ["out_time_ms=2000000\n", "out_time_ms=1000000\n", "progress=end\n"]) := by
  rw [progressTrace_eq_map]
  rw [show lineValues
      ["out_time_ms=2000000\n", "out_time_ms=1000000\n", "progress=end\n"]
      = [2000000, 1000000] from rfl]
  intro h
  simp only [List.map, List.chain'_cons, List.chain'_singleton, and_true] at h
  norm_num at h

/-- C9 amended: every line carrying a parsed out_time_ms value sets the
displayed position to that value over one million, whatever the previous
position; the routine terminates exactly when a line containing
progress=end is consumed (its result does not depend on anything after
that line, and it reports termination exactly when such a line occurs);
and the displayed positions strictly increase whenever the reported
values strictly increase, which the claim assumed of every log. -/
theorem progress_routine_spec :
    (∀ (n : ℚ) (line : String) (v : Int), lineValue line = some v →
        progressStep n line = (v : ℚ) / 1000000)
    ∧ (∀ (n : ℚ) (lines : List String),
        (update_ffmpeg_progress n lines).2 = true
          ↔ ∃ line ∈ lines, isEndLine line = true)
    ∧ (∀ (n : ℚ) (pre post1 post2 : List String) (endline : String),
        isEndLine endline = true →
        update_ffmpeg_progress n (pre ++ endline :: post1)
          = update_ffmpeg_progress n (pre ++ endline :: post2))
    ∧ (∀ (n : ℚ) (lines : List String),
        List.Chain' (fun a b : Int => a < b) (lineValues lines) →
        List.Chain' (fun a b : ℚ => a < b) (progressTrace n lines)) := by
  refine ⟨fun n line v h => progressStep_some h, ?_, ?_, ?_⟩
  · intro n lines
    induction lines generalizing n with
    | nil => simp [update_ffmpeg_progress]
    | cons line rest ih =>
      cases he : isEndLine line with
      | true => simp [update_ffmpeg_progress, he]
      | false => simp [update_ffmpeg_progress, he, ih]
  · intro n pre post1 post2 endline hend
    induction pre generalizing n with
    | nil => simp [update_ffmpeg_progress, hend]
    | cons p pre ih =>
      cases hp : isEndLine p with
      | true => simp [update_ffmpeg_progress, hp]
      | false => simp [update_ffmpeg_progress, hp, ih]
  · intro n lines hc
    rw [progressTrace_eq_map]
    rw [List.chain'_map]
    refine List.Chain'.imp ?_ hc
    intro a b hab
    gcongr

/-- Witness for C5 at a concrete URL with surrounding whitespace and at a
concrete input for the playlist part. -/
theorem main_loop_single_video_only_witness :
    dispatch " https://youtu.be/x " = LoopAction.downloadVideo "https://youtu.be/x"
    ∧ dispatch "anything" ≠ LoopAction.downloadPlaylist "anything" :=
  ⟨main_loop_single_video_only.1 " https://youtu.be/x "
      (by decide) (by decide) (by decide) (by decide),
   main_loop_single_video_only.2 "anything" "anything"⟩

/-- Witness for C10 at the two example inputs of the claim. -/
theorem command_recognition_examples :
    dispatch "  /EXIT " = LoopAction.exit
    ∧ dispatch "/Video" = LoopAction.setVideo :=
  ⟨(command_recognition "  /EXIT ").1 (by decide),
   (command_recognition "/Video").2.1 (by decide)⟩
